import Mathlib

set_option autoImplicit false
set_option maxRecDepth 100000

/-!
# Verification of the OpenVPN build pipeline of linux-aws-vpn-client

Shallow embedding of `utils.go` (`commandExists`, `extractSIDFromOpenVPN`,
`downloadFileAsTemp`, `copyFile`) and `setup.go` (`setupAction`).

Calls to the outside world (file system, network, processes) take their outcome from an
explicit environment record and are written to a trace of `Event`s, so that statements
such as "the patch process is never started" become statements about the trace.
Go `error` values are modelled by their message: `none` is `nil`.
Informational and debug logging is not traced; error and warning logs are.
-/

namespace AwsVpnClient

/-! ## Bytes, SHA-256 and hexadecimal rendering (Go standard library) -/

abbrev Bytes := List UInt8

/-- Go `error`: `none` is `nil`, `some msg` is an error whose text is `msg`. -/
abbrev GoError := Option String

def w32 (x : Nat) : Nat := x % 4294967296

def rotr (x n : Nat) : Nat := w32 ((x >>> n) ||| (x <<< (32 - n)))

/-- Bit-by-bit search for the largest `r` with `r ^ k ≤ n`, from bit `b - 1` down. -/
def rootFloor (k n : Nat) : Nat → Nat → Nat
  | 0, r => r
  | b + 1, r => if (r + 2 ^ b) ^ k ≤ n then rootFloor k n b (r + 2 ^ b) else rootFloor k n b r

/-- First 32 bits of the fractional part of the `k`-th root of `p`. -/
def rootFraction (k p : Nat) : Nat := w32 (rootFloor k (p * 2 ^ (32 * k)) 36 0)

/-- Trial division: does `n` have a divisor `e` with `d ≤ e` and `e * e ≤ n`? -/
def hasDivisorFrom (n : Nat) : Nat → Nat → Bool
  | 0, _ => false
  | fuel + 1, d =>
    if n < d * d then false
    else if n % d = 0 then true
    else hasDivisorFrom n fuel (d + 1)

def isPrime (n : Nat) : Bool := 2 ≤ n && !hasDivisorFrom n n 2

/-- The first 64 primes. -/
def sha256Primes : List Nat := (List.range 312).filter isPrime

/-- Round constants: fractional parts of the cube roots of the first 64 primes. -/
def sha256K : List Nat := sha256Primes.map (rootFraction 3)

/-- Initial hash value: fractional parts of the square roots of the first 8 primes. -/
def sha256Init : List Nat := (sha256Primes.take 8).map (rootFraction 2)

/-- Big-endian encoding of `x` on `n` bytes. -/
def beBytes : Nat → Nat → List Nat
  | 0, _ => []
  | n + 1, x => beBytes n (x / 256) ++ [x % 256]

/-- Message padding: a 0x80 byte, zeros up to 56 mod 64, then the bit length on 8 bytes. -/
def sha256Pad (m : List Nat) : List Nat :=
  m ++ [0x80] ++ List.replicate ((55 + 64 - m.length % 64) % 64) 0 ++ beBytes 8 (m.length * 8)

/-- Big-endian 32-bit words of a byte list. -/
def beWords : Nat → List Nat → List Nat
  | 0, _ => []
  | n + 1, bs => (bs.take 4).foldl (fun a b => a * 256 + b) 0 :: beWords n (bs.drop 4)

/-- Extend the 16 message words to the 64-word schedule (kept newest-first in `rev`). -/
def sha256Schedule : Nat → List Nat → List Nat
  | 0, rev => rev.reverse
  | n + 1, rev =>
    let w2 := rev.getD 1 0
    let w7 := rev.getD 6 0
    let w15 := rev.getD 14 0
    let w16 := rev.getD 15 0
    let s0 := (rotr w15 7) ^^^ (rotr w15 18) ^^^ (w15 >>> 3)
    let s1 := (rotr w2 17) ^^^ (rotr w2 19) ^^^ (w2 >>> 10)
    sha256Schedule n (w32 (w16 + s0 + w7 + s1) :: rev)

def sha256Round (st : List Nat) (kw : Nat × Nat) : List Nat :=
  match st with
  | [a, b, c, d, e, f, g, h] =>
    let s1 := (rotr e 6) ^^^ (rotr e 11) ^^^ (rotr e 25)
    let ch := (e &&& f) ^^^ ((4294967295 - e) &&& g)
    let t1 := w32 (h + s1 + ch + kw.1 + kw.2)
    let s0 := (rotr a 2) ^^^ (rotr a 13) ^^^ (rotr a 22)
    let maj := (a &&& b) ^^^ (a &&& c) ^^^ (b &&& c)
    let t2 := w32 (s0 + maj)
    [w32 (t1 + t2), a, b, c, w32 (d + t1), e, f, g]
  | _ => st

def sha256Block (st : List Nat) (block : List Nat) : List Nat :=
  let w := sha256Schedule 48 (beWords 16 block).reverse
  List.zipWith (fun x y => w32 (x + y)) st ((sha256K.zip w).foldl sha256Round st)

def sha256Blocks : Nat → List Nat → List Nat → List Nat
  | 0, st, _ => st
  | n + 1, st, bs => sha256Blocks n (sha256Block st (bs.take 64)) (bs.drop 64)

/-- The 32-byte SHA-256 digest of a byte sequence (FIPS 180-4). -/
def sha256Sum (b : Bytes) : Bytes :=
  let p := sha256Pad (b.map UInt8.toNat)
  ((sha256Blocks (p.length / 64) sha256Init p).flatMap (beBytes 4)).map UInt8.ofNat

def hexDigit (n : Nat) : Char := "0123456789abcdef".toList.getD n '0'

/-- Rendering of a byte slice by the `%x` verb: two lower-case hex digits per byte. -/
def hexEncode (bs : Bytes) : String :=
  String.mk (bs.flatMap fun b => [hexDigit (b.toNat / 16), hexDigit (b.toNat % 16)])

/-- Bytes of a string of ASCII characters. -/
def asciiBytes (s : String) : Bytes := s.data.map fun c => UInt8.ofNat c.toNat

/-- Substring test on Go strings: `sub` occurs in `s`. -/
def Contains (s sub : String) : Prop := sub.data <:+: s.data

instance (s sub : String) : Decidable (Contains s sub) := by
  unfold Contains; infer_instance

/-! ## Strings and paths (Go standard library) -/

/-- Pieces of a character sequence between occurrences of `sep`
(`strings.Split` with a one-character separator). -/
def splitOnChar (sep : Char) : List Char → List (List Char)
  | [] => [[]]
  | c :: cs =>
    if c = sep then [] :: splitOnChar sep cs
    else
      match splitOnChar sep cs with
      | [] => [[c]]
      | t :: ts => (c :: t) :: ts

/-- Model of `strings.Split(s, sep)` for a one-character separator. -/
def stringsSplit (s : String) (sep : Char) : List String :=
  (splitOnChar sep s.data).map String.mk

/-- Model of `strings.HasPrefix(s, pre)`. -/
def hasPrefix (s pre : String) : Bool := pre.data.isPrefixOf s.data

/-- Lexical processing of path elements by `path.Clean`; `acc` is the stack of kept
elements, last one first. -/
def cleanElems (rooted : Bool) : List (List Char) → List (List Char) → List (List Char)
  | acc, [] => acc.reverse
  | acc, c :: cs =>
    if c = [] ∨ c = ['.'] then cleanElems rooted acc cs
    else if c = ['.', '.'] then
      match acc with
      | [] => if rooted then cleanElems rooted [] cs else cleanElems rooted [c] cs
      | top :: below =>
        if top = ['.', '.'] then cleanElems rooted (c :: acc) cs
        else cleanElems rooted below cs
    else cleanElems rooted (c :: acc) cs

/-- Model of `path.Clean`. -/
def pathClean (p : String) : String :=
  if p = "" then "."
  else
    let rooted := p.data.head? = some '/'
    let body := String.mk (List.intercalate ['/'] (cleanElems rooted [] (splitOnChar '/' p.data)))
    if rooted then "/" ++ body
    else if body = "" then "." else body

/-- Model of `path.Join` on two elements: empty elements are dropped, the rest joined
with a slash and cleaned. -/
def pathJoin (a b : String) : String :=
  if a = "" ∧ b = "" then ""
  else if a = "" then pathClean b
  else pathClean (a ++ "/" ++ b)

/-! ## Trace of calls to the outside world -/

inductive Event where
  /-- Call `log.Error().Msg(msg)`. -/
  | logError (msg : String)
  /-- Call `log.Warn().Err(err).Msg(msg)`. -/
  | logWarn (msg : String)
  /-- External process handed to the operating system (`Run`, `Start`, `CombinedOutput`),
  with its working directory (`""` when unset), program and arguments. -/
  | exec (dir : String) (name : String) (args : List String)
  /-- Call `os.CreateTemp(dir, pattern)`; `created` is the new file when it succeeded. -/
  | createTemp (dir pattern : String) (created : Option String)
  /-- Call `http.Get(url)`. -/
  | httpGet (url : String)
  /-- Call `os.Getwd()`. -/
  | getwd
  /-- Call `os.Stat(path)`. -/
  | stat (path : String)
  /-- Call `os.Open(path)`. -/
  | openFile (path : String)
  /-- Call `os.Create(path)`; `ok` tells whether the file was created (or truncated). -/
  | create (path : String) (ok : Bool)
  /-- A `Write` on the open file `path`; `data` are the bytes that reached the file. -/
  | write (path : String) (data : Bytes)
  /-- Call `os.RemoveAll(path)`; `ok` tells whether it succeeded. -/
  | removeAll (path : String) (ok : Bool)
  /-- Call `os.Remove(path)`; `ok` tells whether it succeeded. -/
  | remove (path : String) (ok : Bool)
  deriving DecidableEq, Repr

/-- Effect of one traced call on the file at path `p`: `none` when the file is absent,
`some content` when it is present. -/
def fileStep (p : String) (cur : Option Bytes) : Event → Option Bytes
  | .createTemp _ _ (some q) => if q = p then some [] else cur
  | .create q true => if q = p then some [] else cur
  | .write q data => if q = p then cur.map (· ++ data) else cur
  | .remove q true => if q = p then none else cur
  | .removeAll q true => if q = p ∨ (q ++ "/").data.isPrefixOf p.data then none else cur
  | _ => cur

/-- State of the file at path `p` after a trace, starting from state `init`. -/
def fileAfter (p : String) (evs : List Event) (init : Option Bytes) : Option Bytes :=
  evs.foldl (fileStep p) init

/-! ## `utils.go` -/

/-- Model of `commandExists`: runs `/bin/sh -c "command -v <command>"` and reports whether
it exited without error; `sh script` is that outcome on the host. -/
def commandExists (sh : String → Bool) (command : String) : Bool × List Event :=
  (sh ("command -v " ++ command), [.exec "" "/bin/sh" ["-c", "command -v " ++ command]])

/-- The loop of `extractSIDFromOpenVPN`: the first token with the prefix, `""` when the
loop ends without one. -/
def firstSID : List String → String
  | [] => ""
  | t :: ts => if hasPrefix t "instance-" then t else firstSID ts

/-- Model of `extractSIDFromOpenVPN`, returning `(SID, err)`. -/
def extractSIDFromOpenVPN (output : String) : String × GoError :=
  let tokens := stringsSplit output ':'
  let sid := firstSID tokens
  if sid = "" then (sid, some "sid not found") else (sid, none)

/-- An HTTP response as `downloadFileAsTemp` sees it. -/
structure HttpResponse where
  /-- Field `resp.Status`, for instance `"200 OK"`. -/
  status : String
  /-- Field `resp.StatusCode`. -/
  statusCode : Int
  /-- Outcome of `io.ReadAll(resp.Body)`. -/
  body : Except String Bytes

/-- A `Write` that failed after `written` bytes with error `err`. -/
structure WriteFault where
  written : Nat
  err : String

/-- Outcomes of the outside-world calls made by `downloadFileAsTemp`. -/
structure DownloadEnv where
  /-- Outcome of `os.CreateTemp(outDir, pattern)`: the name of the new file. -/
  createTemp : Except String String
  /-- Outcome of `http.Get(url)`. -/
  get : Except String HttpResponse
  /-- Outcome of `out.Write(b)`: `none` when all of `b` was written. -/
  write : Option WriteFault

structure DownloadResult where
  filepath : String
  err : GoError
  events : List Event

/-- Model of `downloadFileAsTemp`. -/
def downloadFileAsTemp (w : DownloadEnv) (outDir pattern url shaCheck : String) :
    DownloadResult :=
  match w.createTemp with
  | .error e => ⟨"", some e, [.createTemp outDir pattern none]⟩
  | .ok name =>
    let ev := [Event.createTemp outDir pattern (some name), Event.httpGet url]
    match w.get with
    | .error e => ⟨name, some e, ev⟩
    | .ok resp =>
      if resp.statusCode ≠ 200 then
        ⟨"", some ("bad status: " ++ resp.status ++ " (" ++ toString resp.statusCode ++ ")"), ev⟩
      else
        match resp.body with
        | .error e => ⟨name, some e, ev⟩
        | .ok b =>
          let downloadSha := hexEncode (sha256Sum b)
          if shaCheck ≠ "" ∧ downloadSha ≠ shaCheck then
            ⟨"", some ("unexpected SHA256 (" ++ downloadSha ++ ") expected (" ++ shaCheck ++ ")"),
              ev⟩
          else
            match w.write with
            | some f => ⟨name, some f.err, ev ++ [.write name (b.take f.written)]⟩
            | none => ⟨name, none, ev ++ [.write name b]⟩

/-- Outcomes of the outside-world calls made by `copyFile`. -/
structure CopyEnv where
  /-- Outcome of `os.Stat(src)`: whether `Mode().IsRegular()` holds. -/
  stat : Except String Bool
  /-- Outcome of `os.Open(src)`: the content of the source file when it is opened. -/
  openSrc : Except String Bytes
  /-- Whether `dst` names, through another path (a link, another spelling), the very file
  that `src` names. -/
  sameFile : Bool
  /-- Outcome of `os.Create(dst)`. -/
  create : GoError
  /-- Number of bytes the `k`-th `Read` is ready to deliver (reads may be short). -/
  readLen : Nat → Nat
  /-- A non-EOF error of the `k`-th `Read`. -/
  readErr : Nat → GoError
  /-- Outcome of the `k`-th `Write`: `none` when the whole chunk was written. -/
  write : Nat → Option WriteFault

/-- The count `n` returned by the `k`-th `source.Read(buf)` with `len(buf) = bufferSize`
when `rest` is still unread; `0` stands for end-of-stream. -/
def readCount (w : CopyEnv) (bufferSize k : Nat) (rest : Bytes) : Nat :=
  min (w.readLen k) (min bufferSize rest.length)

/-- The read/write loop of `copyFile`. Every round that does not leave the loop consumes
at least one byte, so the number of unread bytes bounds the number of rounds: `fuel`
exceeds it, and the loop is total. -/
def copyLoop (w : CopyEnv) (dst : String) (bufferSize : Nat) :
    (fuel k : Nat) → (rest : Bytes) → rest.length < fuel → List Event → GoError × List Event
  | 0, _, _, h, _ => absurd h (Nat.not_lt_zero _)
  | fuel + 1, k, rest, h, ev =>
    match w.readErr k with
    | some e => (some e, ev)
    | none =>
      if hn : readCount w bufferSize k rest = 0 then (none, ev)
      else
        let chunk := rest.take (readCount w bufferSize k rest)
        match w.write k with
        | some f => (some f.err, ev ++ [.write dst (chunk.take f.written)])
        | none =>
          copyLoop w dst bufferSize fuel (k + 1) (rest.drop (readCount w bufferSize k rest))
            (by rw [List.length_drop]; unfold readCount at hn ⊢; omega) (ev ++ [.write dst chunk])

structure CopyResult where
  err : GoError
  events : List Event
  /-- Whether the call ended in a run-time panic instead of returning; `err` is then
  meaningless. -/
  panicked : Bool

/-- Model of `copyFile`. `bufferSize` is the `int64` of the source: on a negative one
`make([]byte, bufferSize)` panics, after the destination was created.
`os.Create(dst)` truncates the file it names: when that is the file `src` names (the same
path, or `sameFile`), the source handle has nothing left to deliver. -/
def copyFile (w : CopyEnv) (src dst : String) (bufferSize : Int) : CopyResult :=
  match w.stat with
  | .error e => ⟨some e, [.stat src], false⟩
  | .ok regular =>
    if !regular then ⟨some (src ++ " is not a regular file"), [.stat src], false⟩
    else
      match w.openSrc with
      | .error e => ⟨some e, [.stat src, .openFile src], false⟩
      | .ok content =>
        match w.create with
        | some e => ⟨some e, [.stat src, .openFile src, .create dst false], false⟩
        | none =>
          if bufferSize < 0 then ⟨none, [.stat src, .openFile src, .create dst true], true⟩
          else
            let unread := if dst = src ∨ w.sameFile = true then [] else content
            let r := copyLoop w dst bufferSize.toNat (unread.length + 1) 0 unread
              (Nat.lt_succ_self _) [.stat src, .openFile src, .create dst true]
            ⟨r.1, r.2, false⟩

/-! ## `setup.go` -/

def openVPNRelease : String :=
  "https://swupdate.openvpn.org/community/releases/openvpn-2.5.1.tar.xz"

def openVPNSha : String := ""

def openVPNBuildTopLevelDir : String := "aws-openvpn"

def openVPNBuildDest : String := "/tmp"

def openVPNBuildDirPath : String := pathJoin openVPNBuildDest openVPNBuildTopLevelDir

/-- Outcomes of the outside-world calls made by `setupAction`, and the two values it
takes from elsewhere in the program. -/
structure SetupEnv where
  /-- The constant `errorSuffix`, declared outside `setup.go` and `utils.go`. -/
  errorSuffix : String
  /-- Value of `c.String("tmpDir")`. -/
  tmpDir : String
  /-- Whether `/bin/sh -c script` exits without error on the host. -/
  sh : String → Bool
  download : DownloadEnv
  /-- Error of `tarCommand.CombinedOutput()`. -/
  tar : GoError
  configureStart : GoError
  configureWait : GoError
  /-- Outcome of `os.Getwd()`. -/
  getwd : Except String String
  patchStart : GoError
  patchWait : GoError
  makeStart : GoError
  makeWait : GoError
  copy : CopyEnv
  /-- Error of `os.RemoveAll(openVPNBuildDirPath)`. -/
  removeAll : GoError
  /-- Error of `os.Remove(openVPNTarName)`. -/
  remove : GoError

structure SetupResult where
  err : GoError
  events : List Event

/-- Model of `setupAction`. Its `copyFile` call passes the buffer size 5120 and so cannot
panic; only the error and the trace of that call are used. -/
def setupAction (w : SetupEnv) : SetupResult :=
  let tar := commandExists w.sh "tar"
  let ev := tar.2 ++
    (if !tar.1 then [Event.logError ("git not found! Please install git to continue." ++ w.errorSuffix)]
     else [])
  let patch := commandExists w.sh "patch"
  let ev := ev ++ patch.2 ++
    (if !patch.1 then
      [Event.logError ("Ruby not found! Please install patch to continue." ++ w.errorSuffix)]
     else [])
  let make := commandExists w.sh "make"
  let ev := ev ++ make.2 ++
    (if !make.1 then
      [Event.logError ("Make not found! Please install build-essentials or development tools to continue." ++ w.errorSuffix)]
     else [])
  let quit := !tar.1 || !patch.1 || !make.1
  if quit then ⟨some "one or more commands not found", ev⟩
  else
    let dl := downloadFileAsTemp w.download w.tmpDir "*openvpn-2.5.1.tar.xz" openVPNRelease openVPNSha
    let openVPNTarName := dl.filepath
    let ev := ev ++ dl.events
    match dl.err with
    | some e => ⟨some ("failed downloading OpenVPN code: " ++ e ++ " " ++ w.errorSuffix), ev⟩
    | none =>
      let ev := ev ++ [Event.exec "" "tar" ["-xf", openVPNTarName, "-C", openVPNBuildDest,
        "--strip-components", "1", "--one-top-level=" ++ openVPNBuildTopLevelDir]]
      match w.tar with
      | some e => ⟨some e, ev⟩
      | none =>
        let ev := ev ++ [Event.exec openVPNBuildDirPath "./configure" ["--disable-debug",
          "--disable-dependency-tracking", "--disable-silent-rules",
          "--with-crypto-library=openssl"]]
        match w.configureStart with
        | some e => ⟨some e, ev⟩
        | none =>
          match w.configureWait with
          | some e => ⟨some e, ev⟩
          | none =>
            let ev := ev ++ [Event.getwd]
            match w.getwd with
            | .error e => ⟨some e, ev⟩
            | .ok pwd =>
              let ev := ev ++ [Event.exec "" "patch" ["-ruN", "-p0", "-f", "-s", "-d",
                openVPNBuildDirPath,
                "--input=" ++ pathJoin pwd "scripts/openvpn-v2.5.1-aws.patch"]]
              match w.patchStart with
              | some e => ⟨some e, ev⟩
              | none =>
                match w.patchWait with
                | some e => ⟨some e, ev⟩
                | none =>
                  let ev := ev ++ [Event.exec openVPNBuildDirPath "make" []]
                  match w.makeStart with
                  | some e => ⟨some e, ev⟩
                  | none =>
                    match w.makeWait with
                    | some e => ⟨some e, ev⟩
                    | none =>
                      let cp := copyFile w.copy (openVPNBuildDirPath ++ "/src/openvpn/openvpn")
                        "./openvpn" 5120
                      let ev := ev ++ cp.events
                      match cp.err with
                      | some e => ⟨some e, ev⟩
                      | none =>
                        let ev := ev ++ [Event.removeAll openVPNBuildDirPath w.removeAll.isNone] ++
                          (match w.removeAll with
                           | some _ => [Event.logWarn "failed removing openvpn code"]
                           | none => [])
                        let ev := ev ++ [Event.remove openVPNTarName w.remove.isNone] ++
                          (match w.remove with
                           | some _ => [Event.logWarn "failed removing openvpn tar"]
                           | none => [])
                        ⟨none, ev⟩

/-! ## Vocabulary of the pipeline: stages, their outcome in a run, cleanup -/

/-- The `downloadFileAsTemp` call of `setupAction`. -/
def setupDownload (w : SetupEnv) : DownloadResult :=
  downloadFileAsTemp w.download w.tmpDir "*openvpn-2.5.1.tar.xz" openVPNRelease openVPNSha

/-- The `copyFile` call of `setupAction`. -/
def setupCopy (w : SetupEnv) : CopyResult :=
  copyFile w.copy (openVPNBuildDirPath ++ "/src/openvpn/openvpn") "./openvpn" 5120

/-- Preflight succeeds when `tar`, `patch` and `make` are all found. -/
def preflightOk (w : SetupEnv) : Bool :=
  (commandExists w.sh "tar").1 && (commandExists w.sh "patch").1 && (commandExists w.sh "make").1

def downloadOk (w : SetupEnv) : Bool := (setupDownload w).err.isNone

def extractOk (w : SetupEnv) : Bool := w.tar.isNone

/-- Configure succeeds when the process starts and exits with status zero. -/
def configureOk (w : SetupEnv) : Bool := w.configureStart.isNone && w.configureWait.isNone

/-- Patch succeeds when the working directory is resolved and the process starts and exits
with status zero. -/
def patchOk (w : SetupEnv) : Bool :=
  w.getwd.toBool && w.patchStart.isNone && w.patchWait.isNone

def compileOk (w : SetupEnv) : Bool := w.makeStart.isNone && w.makeWait.isNone

def installOk (w : SetupEnv) : Bool := (setupCopy w).err.isNone

inductive Stage where
  | preflight | download | extract | configure | patch | compile | install
  deriving DecidableEq, Repr

def allStages : List Stage :=
  [.preflight, .download, .extract, .configure, .patch, .compile, .install]

/-- Outcome of each stage in the environment `w`, in the order of `allStages`. -/
def stageOutcomes (w : SetupEnv) : List Bool :=
  [preflightOk w, downloadOk w, extractOk w, configureOk w, patchOk w, compileOk w, installOk w]

def allStagesOk (w : SetupEnv) : Bool := (stageOutcomes w).all id

/-- Number of stages at the head of the pipeline that succeed in `w`. -/
def succeededStages (w : SetupEnv) : Nat := ((stageOutcomes w).takeWhile id).length

/-- The first outside-world call of each stage. -/
def stageMarker : Event → Option Stage
  | .exec _ name args =>
    if name = "/bin/sh" ∧ args = ["-c", "command -v tar"] then some .preflight
    else if name = "tar" then some .extract
    else if name = "./configure" then some .configure
    else if name = "make" then some .compile
    else none
  | .createTemp _ _ _ => some .download
  | .getwd => some .patch
  | .stat _ => some .install
  | _ => none

/-- Stages started in a trace, in the order in which they were started. -/
def stagesStarted (evs : List Event) : List Stage := evs.filterMap stageMarker

/-- Programs other than the preflight shell handed to the operating system, in order. -/
def toolsStarted (evs : List Event) : List String :=
  evs.filterMap fun e =>
    match e with
    | .exec _ name _ => if name = "/bin/sh" then none else some name
    | _ => none

/-- The tools a run in `w` gets to start: each one only after everything before it
succeeded. -/
def toolsReached (w : SetupEnv) : List String :=
  if preflightOk w && downloadOk w then
    "tar" ::
      (if extractOk w then
        "./configure" ::
          (if configureOk w && w.getwd.toBool then
            "patch" :: (if patchOk w then ["make"] else [])
           else [])
       else [])
  else []

def isRemoval : Event → Bool
  | .removeAll _ _ => true
  | .remove _ _ => true
  | _ => false

/-- The removals attempted in a trace, in order. -/
def cleanupEvents (evs : List Event) : List Event := evs.filter isRemoval

/-! ## Concrete environments -/

/-- A response with status 200 whose body was read and whose write does not fail. -/
def sampleDownloadEnv : DownloadEnv :=
  ⟨.ok "/tmp/123openvpn-2.5.1.tar.xz", .ok ⟨"200 OK", 200, .ok [97, 98, 99]⟩, none⟩

/-- A response with the success status 204 whose (empty) body is read without error. -/
def noContentEnv : DownloadEnv :=
  ⟨.ok "/tmp/123openvpn-2.5.1.tar.xz", .ok ⟨"204 No Content", 204, .ok []⟩, none⟩

/-- A source of five bytes read through short reads of at most two bytes. -/
def sampleCopyEnv : CopyEnv :=
  ⟨.ok true, .ok [1, 2, 3, 4, 5], false, none, fun _ => 2, fun _ => none, fun _ => none⟩

/-- A source path that names a directory. -/
def directoryCopyEnv : CopyEnv :=
  ⟨.ok false, .error "is a directory", false, none, fun _ => 0, fun _ => none, fun _ => none⟩

/-- A host with every tool, on which everything succeeds but `./configure`, which exits
with status 1. -/
def configureFailsEnv : SetupEnv :=
  { errorSuffix := "", tmpDir := "/tmp", sh := fun _ => true,
    download := sampleDownloadEnv, tar := none,
    configureStart := none, configureWait := some "exit status 1",
    getwd := .ok "/home/user/linux-aws-vpn-client",
    patchStart := none, patchWait := none, makeStart := none, makeWait := none,
    copy := sampleCopyEnv, removeAll := none, remove := none }

/-- A host on which every stage succeeds and both removals fail. -/
def allOkEnv : SetupEnv :=
  { configureFailsEnv with
    configureWait := none, removeAll := some "permission denied", remove := some "busy" }

/-- A host without `tar`, with `patch` and `make`. -/
def tarMissingEnv (errorSuffix : String) : SetupEnv :=
  { configureFailsEnv with
    errorSuffix := errorSuffix, sh := fun script => script != "command -v tar" }

/-! # Theorems -/

/-! ## Checks of the library models -/

/-- SHA-256 of the empty message (FIPS 180-4 test vector). -/
theorem sha256Sum_nil :
    hexEncode (sha256Sum []) =
      "e3b0c44298fc1c149afbf4c8996fb92427ae41e4649b934ca495991b7852b855" := by
  decide

/-- SHA-256 of `"abc"` (FIPS 180-4 test vector). -/
theorem sha256Sum_abc :
    hexEncode (sha256Sum [97, 98, 99]) =
      "ba7816bf8f01cfea414140de5dae2223b00361a396177a9cb410ff61f20015ad" := by
  decide

/-- SHA-256 of a 56-byte message, which pads to two blocks (FIPS 180-4 test vector). -/
theorem sha256Sum_two_blocks :
    hexEncode (sha256Sum
      (asciiBytes "abcdbcdecdefdefgefghfghighijhijkijkljklmklmnlmnomnopnopq")) =
      "248d6a61d20638b8e5c026930c3e6039a33ce45964ff2167f6ecedd419db06c1" := by
  decide

/-- The derived constants agree with the values printed in FIPS 180-4. -/
theorem sha256_constants :
    sha256Init = [0x6a09e667, 0xbb67ae85, 0x3c6ef372, 0xa54ff53a,
      0x510e527f, 0x9b05688c, 0x1f83d9ab, 0x5be0cd19] ∧
    sha256K.length = 64 ∧
    sha256K.take 4 = [0x428a2f98, 0x71374491, 0xb5c0fbcf, 0xe9b5dba5] ∧
    sha256K.getLast? = some 0xc67178f2 := by
  decide

theorem openVPNBuildDirPath_eq : openVPNBuildDirPath = "/tmp/aws-openvpn" := by decide

theorem pathJoin_examples :
    pathJoin "/home/user" "scripts/openvpn-v2.5.1-aws.patch" =
      "/home/user/scripts/openvpn-v2.5.1-aws.patch" ∧
    pathJoin "/" "scripts" = "/scripts" ∧
    pathJoin "a/../../b/./c//d/" "../e" = "../b/c/e" ∧
    pathJoin "" "" = "" := by
  decide

/-! ## Strings -/

theorem splitOnChar_ne_nil (sep : Char) (l : List Char) : splitOnChar sep l ≠ [] := by
  induction l with
  | nil => simp [splitOnChar]
  | cons c cs ih =>
    unfold splitOnChar
    split
    · simp
    · split <;> simp

/-- No piece of a split holds the separator. -/
theorem sep_not_mem_of_mem_splitOnChar (sep : Char) (l t : List Char)
    (h : t ∈ splitOnChar sep l) : sep ∉ t := by
  induction l generalizing t with
  | nil => simp [splitOnChar] at h; simp [h]
  | cons c cs ih =>
    unfold splitOnChar at h
    split at h
    · rcases List.mem_cons.1 h with h | h
      · simp [h]
      · exact ih t h
    · split at h
      · simp at h; subst h; simp; intro hc; exact absurd hc.symm ‹_›
      · rename_i u us hu
        rcases List.mem_cons.1 h with h | h
        · subst h
          have := ih u (by rw [hu]; simp)
          simp only [List.mem_cons, not_or]
          exact ⟨fun hc => absurd hc.symm ‹_›, this⟩
        · exact ih t (by rw [hu]; simp [h])

/-- Joining the pieces of a split with the separator gives the sequence back. -/
theorem intercalate_splitOnChar (sep : Char) (l : List Char) :
    List.intercalate [sep] (splitOnChar sep l) = l := by
  induction l with
  | nil => simp [splitOnChar, List.intercalate]
  | cons c cs ih =>
    unfold splitOnChar
    split
    · rename_i hc
      have hne := splitOnChar_ne_nil sep cs
      cases hs : splitOnChar sep cs with
      | nil => exact absurd hs hne
      | cons u us =>
        rw [hs] at ih
        simp [List.intercalate, List.intersperse] at ih ⊢
        simpa [hc] using ih
    · split
      · rename_i hs; exact absurd hs (splitOnChar_ne_nil sep cs)
      · rename_i u us hs
        rw [hs] at ih
        cases us with
        | nil => simp [List.intercalate, List.intersperse] at ih ⊢; exact ih
        | cons v vs => simp [List.intercalate, List.intersperse] at ih ⊢; exact ih

theorem firstSID_eq_find (toks : List String) :
    firstSID toks = ((toks.find? fun t => hasPrefix t "instance-").getD "") := by
  induction toks with
  | nil => rfl
  | cons t ts ih =>
    unfold firstSID
    by_cases h : hasPrefix t "instance-" = true
    · simp [h]
    · simp [h, ih]

theorem ne_empty_of_hasPrefix (t : String) (h : hasPrefix t "instance-" = true) : t ≠ "" := by
  intro ht
  subst ht
  revert h
  decide

/-- C10: `extractSIDFromOpenVPN` returns, with no error, the leftmost piece of the split
on `':'` that starts with `"instance-"`; it returns `""` with the error `"sid not found"`
exactly when no piece starts with `"instance-"`; a SID returned without error holds no
`':'` and starts with `"instance-"`. -/
theorem extractSIDFromOpenVPN_spec (s : String) :
    extractSIDFromOpenVPN s =
      (match (stringsSplit s ':').find? (fun t => hasPrefix t "instance-") with
       | some t => (t, none)
       | none => ("", some "sid not found")) ∧
    (extractSIDFromOpenVPN s = ("", some "sid not found") ↔
      ∀ t ∈ stringsSplit s ':', hasPrefix t "instance-" = false) ∧
    ((extractSIDFromOpenVPN s).2 = none →
      ':' ∉ (extractSIDFromOpenVPN s).1.data ∧
      hasPrefix (extractSIDFromOpenVPN s).1 "instance-" = true) := by
  have key : extractSIDFromOpenVPN s =
      (match (stringsSplit s ':').find? (fun t => hasPrefix t "instance-") with
       | some t => (t, none)
       | none => ("", some "sid not found")) := by
    unfold extractSIDFromOpenVPN
    simp only [firstSID_eq_find]
    cases hf : (stringsSplit s ':').find? (fun t => hasPrefix t "instance-") with
    | none => simp
    | some t =>
      have ht := List.find?_some hf
      simp [ne_empty_of_hasPrefix t ht]
  refine ⟨key, ?_, ?_⟩
  · rw [key]
    cases hf : (stringsSplit s ':').find? (fun t => hasPrefix t "instance-") with
    | none =>
      simp only [true_iff]
      intro t ht
      have := List.find?_eq_none.1 hf t ht
      simpa using this
    | some t =>
      have ht := List.find?_some hf
      have hm := List.mem_of_find?_eq_some hf
      simp only [Prod.mk.injEq, false_iff, and_false, reduceCtorEq]
      intro hall
      have := hall t hm
      rw [ht] at this
      exact absurd this (by simp)
  · rw [key]
    cases hf : (stringsSplit s ':').find? (fun t => hasPrefix t "instance-") with
    | none => simp
    | some t =>
      have ht := List.find?_some hf
      have hm := List.mem_of_find?_eq_some hf
      intro _
      refine ⟨?_, ht⟩
      simp only [stringsSplit, List.mem_map] at hm
      obtain ⟨u, hu, rfl⟩ := hm
      exact sep_not_mem_of_mem_splitOnChar ':' s.data u hu

/-! ## `downloadFileAsTemp` -/

theorem contains_append_mid (a s b : String) : Contains (a ++ s ++ b) s := by
  unfold Contains
  simp only [String.data_append]
  exact ⟨a.data, b.data, rfl⟩

/-- The mismatch error text holds both digests. -/
theorem mismatch_message_contains (computed expected : String) :
    Contains ("unexpected SHA256 (" ++ computed ++ ") expected (" ++ expected ++ ")") computed ∧
    Contains ("unexpected SHA256 (" ++ computed ++ ") expected (" ++ expected ++ ")") expected := by
  constructor
  · have := contains_append_mid "unexpected SHA256 (" computed (") expected (" ++ expected ++ ")")
    simpa [String.append_assoc] using this
  · exact contains_append_mid _ _ _

/-- C2: with the temporary file created, a response of status 200 and body `b` received,
and a non-empty expected digest `d`: if `d` is the hex-encoded SHA-256 of `b` the call
returns the temporary file's path and no error (the one error it can still return is that
of a failing write of `b`, the last call it makes); if `d` differs, it returns the empty
path and the mismatch error, whose text holds both the computed and the expected digest. -/
theorem downloadFileAsTemp_digest (w : DownloadEnv) (outDir pattern url d name : String)
    (resp : HttpResponse) (b : Bytes)
    (hTemp : w.createTemp = .ok name) (hGet : w.get = .ok resp)
    (hStatus : resp.statusCode = 200) (hBody : resp.body = .ok b) (hd : d ≠ "") :
    (d = hexEncode (sha256Sum b) →
      (downloadFileAsTemp w outDir pattern url d).filepath = name ∧
      (downloadFileAsTemp w outDir pattern url d).err = w.write.map WriteFault.err ∧
      (w.write = none → (downloadFileAsTemp w outDir pattern url d).err = none)) ∧
    (d ≠ hexEncode (sha256Sum b) →
      (downloadFileAsTemp w outDir pattern url d).filepath = "" ∧
      (downloadFileAsTemp w outDir pattern url d).err =
        some ("unexpected SHA256 (" ++ hexEncode (sha256Sum b) ++ ") expected (" ++ d ++ ")") ∧
      Contains ("unexpected SHA256 (" ++ hexEncode (sha256Sum b) ++ ") expected (" ++ d ++ ")")
        (hexEncode (sha256Sum b)) ∧
      Contains ("unexpected SHA256 (" ++ hexEncode (sha256Sum b) ++ ") expected (" ++ d ++ ")")
        d) := by
  constructor
  · intro hEq
    cases hW : w.write <;> simp [downloadFileAsTemp, hTemp, hGet, hStatus, hBody, hW, hEq]
  · intro hNe
    have hNe2 : ¬ hexEncode (sha256Sum b) = d := fun h => hNe h.symm
    refine ⟨?_, ?_, mismatch_message_contains _ _⟩
    · simp [downloadFileAsTemp, hTemp, hGet, hStatus, hBody, hd, hNe2]
    · simp [downloadFileAsTemp, hTemp, hGet, hStatus, hBody, hd, hNe2]

theorem downloadFileAsTemp_digest_witness :
    (downloadFileAsTemp sampleDownloadEnv "/tmp" "*openvpn-2.5.1.tar.xz" openVPNRelease
        "ba7816bf8f01cfea414140de5dae2223b00361a396177a9cb410ff61f20015ad").err = none ∧
    (downloadFileAsTemp sampleDownloadEnv "/tmp" "*openvpn-2.5.1.tar.xz" openVPNRelease
        "00").filepath = "" :=
  ⟨(downloadFileAsTemp_digest sampleDownloadEnv "/tmp" "*openvpn-2.5.1.tar.xz" openVPNRelease
      "ba7816bf8f01cfea414140de5dae2223b00361a396177a9cb410ff61f20015ad"
      "/tmp/123openvpn-2.5.1.tar.xz" ⟨"200 OK", 200, .ok [97, 98, 99]⟩ [97, 98, 99]
      rfl rfl rfl rfl (by decide)).1 (by decide) |>.2.2 rfl,
   ((downloadFileAsTemp_digest sampleDownloadEnv "/tmp" "*openvpn-2.5.1.tar.xz" openVPNRelease
      "00" "/tmp/123openvpn-2.5.1.tar.xz" ⟨"200 OK", 200, .ok [97, 98, 99]⟩ [97, 98, 99]
      rfl rfl rfl rfl (by decide)).2 (by decide)).1⟩

/-- C3 fails at status 204: the status is a 2xx success code, the body is read, the write
does not fail and no digest is expected, yet the call fails with the status error. -/
theorem downloadFileAsTemp_204_fails :
    ∃ resp, noContentEnv.get = .ok resp ∧ 200 ≤ resp.statusCode ∧ resp.statusCode ≤ 299 ∧
      resp.body = .ok [] ∧ noContentEnv.write = none ∧
      (downloadFileAsTemp noContentEnv "/tmp" "*openvpn-2.5.1.tar.xz" openVPNRelease "").err =
        some "bad status: 204 No Content (204)" ∧
      (downloadFileAsTemp noContentEnv "/tmp" "*openvpn-2.5.1.tar.xz" openVPNRelease "").filepath =
        "" :=
  ⟨⟨"204 No Content", 204, .ok []⟩, rfl, by decide, by decide, rfl, rfl, by decide, by decide⟩

/-- C3, amended: with the temporary file created, a response received and no expected
digest, the call succeeds whenever the status code is 200 and the body is read and
written, whatever the body holds; whenever the status code is not 200 (the other 2xx
codes included) it fails with the status error, which holds the status text and code. -/
theorem downloadFileAsTemp_no_digest (w : DownloadEnv) (outDir pattern url name : String)
    (resp : HttpResponse)
    (hTemp : w.createTemp = .ok name) (hGet : w.get = .ok resp) :
    (resp.statusCode = 200 → ∀ b, resp.body = .ok b → w.write = none →
      (downloadFileAsTemp w outDir pattern url "").err = none ∧
      (downloadFileAsTemp w outDir pattern url "").filepath = name) ∧
    (resp.statusCode ≠ 200 →
      (downloadFileAsTemp w outDir pattern url "").err =
        some ("bad status: " ++ resp.status ++ " (" ++ toString resp.statusCode ++ ")") ∧
      Contains ("bad status: " ++ resp.status ++ " (" ++ toString resp.statusCode ++ ")")
        resp.status ∧
      Contains ("bad status: " ++ resp.status ++ " (" ++ toString resp.statusCode ++ ")")
        (toString resp.statusCode)) := by
  constructor
  · intro hS b hB hW
    simp [downloadFileAsTemp, hTemp, hGet, hS, hB, hW]
  · intro hS
    refine ⟨?_, ?_, contains_append_mid _ _ _⟩
    · simp [downloadFileAsTemp, hTemp, hGet, hS]
    · have := contains_append_mid "bad status: " resp.status
        (" (" ++ toString resp.statusCode ++ ")")
      simpa [String.append_assoc] using this

theorem downloadFileAsTemp_no_digest_witness :
    (downloadFileAsTemp sampleDownloadEnv "/tmp" "*openvpn-2.5.1.tar.xz" openVPNRelease "").err =
      none ∧
    (downloadFileAsTemp noContentEnv "/tmp" "*openvpn-2.5.1.tar.xz" openVPNRelease "").err =
      some ("bad status: " ++ "204 No Content" ++ " (" ++ toString (204 : Int) ++ ")") :=
  ⟨((downloadFileAsTemp_no_digest sampleDownloadEnv "/tmp" "*openvpn-2.5.1.tar.xz" openVPNRelease
      "/tmp/123openvpn-2.5.1.tar.xz" ⟨"200 OK", 200, .ok [97, 98, 99]⟩ rfl rfl).1
      rfl [97, 98, 99] rfl rfl).1,
   ((downloadFileAsTemp_no_digest noContentEnv "/tmp" "*openvpn-2.5.1.tar.xz" openVPNRelease
      "/tmp/123openvpn-2.5.1.tar.xz" ⟨"204 No Content", 204, .ok []⟩ rfl rfl).2
      (by decide)).1⟩

theorem fileAfter_append (p : String) (a b : List Event) (init : Option Bytes) :
    fileAfter p (a ++ b) init = fileAfter p b (fileAfter p a init) := by
  simp [fileAfter, List.foldl_append]

/-- C9: once the temporary file `name` is created, it is present after every outcome of
`downloadFileAsTemp` (the function removes nothing); after a non-OK status or a digest
mismatch it is empty and the trace holds no write; and every write in the trace goes to
that file, carries bytes of the body, and happens only when the status was 200 and the
digest check was skipped or passed. -/
theorem downloadFileAsTemp_temp_file (w : DownloadEnv) (outDir pattern url shaCheck name : String)
    (hTemp : w.createTemp = .ok name) :
    (∃ content,
      fileAfter name (downloadFileAsTemp w outDir pattern url shaCheck).events none =
        some content) ∧
    (∀ resp, w.get = .ok resp →
      (resp.statusCode ≠ 200 ∨
        ∃ b, resp.body = .ok b ∧ shaCheck ≠ "" ∧ hexEncode (sha256Sum b) ≠ shaCheck) →
      (downloadFileAsTemp w outDir pattern url shaCheck).err ≠ none ∧
      fileAfter name (downloadFileAsTemp w outDir pattern url shaCheck).events none = some [] ∧
      ∀ p data, Event.write p data ∉ (downloadFileAsTemp w outDir pattern url shaCheck).events) ∧
    (∀ p data, Event.write p data ∈ (downloadFileAsTemp w outDir pattern url shaCheck).events →
      p = name ∧ ∃ resp b, w.get = .ok resp ∧ resp.statusCode = 200 ∧ resp.body = .ok b ∧
        (shaCheck = "" ∨ hexEncode (sha256Sum b) = shaCheck) ∧ data <+: b) := by
  unfold downloadFileAsTemp
  rw [hTemp]
  cases hG : w.get with
  | error e => simp [fileAfter, fileStep]
  | ok resp =>
    by_cases hS : resp.statusCode = 200
    · cases hB : resp.body with
      | error e => simp [hS, hB, fileAfter, fileStep]
      | ok b =>
        by_cases h1 : shaCheck = ""
        · cases hW : w.write <;>
            simp [hS, hB, h1, hW, fileAfter, fileStep, List.take_prefix]
        · by_cases h2 : hexEncode (sha256Sum b) = shaCheck
          · cases hW : w.write <;>
              simp [hS, hB, h1, h2, hW, fileAfter, fileStep, List.take_prefix]
          · simp [hS, hB, h1, h2, fileAfter, fileStep]
    · simp [hS, fileAfter, fileStep]

/-- A download that is refused for its digest: status 200, body `abc`, expected `"00"`. -/
theorem downloadFileAsTemp_temp_file_witness :
    ∃ content,
      fileAfter "/tmp/123openvpn-2.5.1.tar.xz"
        (downloadFileAsTemp sampleDownloadEnv "/tmp" "*openvpn-2.5.1.tar.xz" openVPNRelease
          "00").events none = some content :=
  (downloadFileAsTemp_temp_file sampleDownloadEnv "/tmp" "*openvpn-2.5.1.tar.xz" openVPNRelease
    "00" "/tmp/123openvpn-2.5.1.tar.xz" rfl).1

/-! ## `copyFile` -/

/-- With reads and writes that do not fail and reads that deliver at least one byte while
bytes remain, the loop ends without error after appending all unread bytes to `dst`. -/
theorem copyLoop_copies (w : CopyEnv) (dst : String) (bufferSize : Nat)
    (hBuf : 0 < bufferSize) (hRead : ∀ k, 1 ≤ w.readLen k)
    (hReadErr : ∀ k, w.readErr k = none) (hWrite : ∀ k, w.write k = none)
    (init : Option Bytes) :
    ∀ (fuel k : Nat) (rest : Bytes) (h : rest.length < fuel) (ev : List Event),
      (copyLoop w dst bufferSize fuel k rest h ev).1 = none ∧
      fileAfter dst (copyLoop w dst bufferSize fuel k rest h ev).2 init =
        (fileAfter dst ev init).map (· ++ rest) := by
  intro fuel
  induction fuel with
  | zero => intro k rest h; exact absurd h (Nat.not_lt_zero _)
  | succ fuel ih =>
    intro k rest h ev
    unfold copyLoop
    simp only [hReadErr, hWrite]
    split
    · rename_i hn
      have hr : rest = [] := by
        have h1 := hRead k
        unfold readCount at hn
        have : rest.length = 0 := by omega
        exact List.length_eq_zero.1 this
      subst hr
      cases fileAfter dst ev init <;> simp
    · rename_i hn
      have := ih (k + 1) (rest.drop (readCount w bufferSize k rest))
        (by rw [List.length_drop]; unfold readCount at hn ⊢; omega)
        (ev ++ [.write dst (rest.take (readCount w bufferSize k rest))])
      refine ⟨this.1, ?_⟩
      rw [this.2, fileAfter_append]
      cases fileAfter dst ev init <;> simp [fileAfter, fileStep]

/-- C5 fails when the destination is the source file itself: `os.Create` truncates the
regular file of five bytes that was just opened, the first `Read` meets end-of-stream,
and `copyFile` returns `nil` with the file empty instead of holding its five bytes. -/
theorem copyFile_onto_itself_truncates :
    sampleCopyEnv.stat = .ok true ∧ sampleCopyEnv.openSrc = .ok [1, 2, 3, 4, 5] ∧
    (copyFile sampleCopyEnv "./openvpn" "./openvpn" 3).err = none ∧
    (copyFile sampleCopyEnv "./openvpn" "./openvpn" 3).panicked = false ∧
    (copyFile sampleCopyEnv "./openvpn" "./openvpn" 3).events =
      [.stat "./openvpn", .openFile "./openvpn", .create "./openvpn" true] ∧
    fileAfter "./openvpn" (copyFile sampleCopyEnv "./openvpn" "./openvpn" 3).events
      (some [1, 2, 3, 4, 5]) = some [] ∧
    fileAfter "./openvpn" (copyFile sampleCopyEnv "./openvpn" "./openvpn" 3).events
      (some [1, 2, 3, 4, 5]) ≠ some [1, 2, 3, 4, 5] :=
  ⟨rfl, rfl, by decide, by decide, by decide, by decide, by decide⟩

/-- Whenever the destination is the source file (same path or `sameFile`) and it can be
created, a call with a buffer size that is not negative returns `nil` without a single
write and leaves the file empty. -/
theorem copyFile_same_file (w : CopyEnv) (src dst : String) (bufferSize : Int) (c : Bytes)
    (hStat : w.stat = .ok true) (hOpen : w.openSrc = .ok c) (hCreate : w.create = none)
    (hBuf : 0 ≤ bufferSize) (hReadErr : ∀ k, w.readErr k = none)
    (hSame : dst = src ∨ w.sameFile = true) (init : Option Bytes) :
    (copyFile w src dst bufferSize).err = none ∧
    (copyFile w src dst bufferSize).events = [.stat src, .openFile src, .create dst true] ∧
    fileAfter dst (copyFile w src dst bufferSize).events init = some [] := by
  have hb : ¬ bufferSize < 0 := by omega
  have hev : (copyFile w src dst bufferSize) =
      ⟨none, [.stat src, .openFile src, .create dst true], false⟩ := by
    unfold copyFile
    simp only [hStat, hOpen, hCreate, Bool.not_true, Bool.false_eq_true, if_false, hb,
      if_pos hSame]
    simp [copyLoop, hReadErr, readCount]
  rw [hev]
  simp [fileAfter, fileStep]

/-- C5, amended: for a regular source file that opens with content `c`, a destination
that is another file than the source and can be created, a positive buffer size, reads
that each deliver between one byte and a buffer of the remaining bytes until end-of-stream
and writes that do not fail, `copyFile` returns without error (and without panic) and the
destination holds exactly `c`. -/
theorem copyFile_roundtrip (w : CopyEnv) (src dst : String) (bufferSize : Int) (c : Bytes)
    (hStat : w.stat = .ok true) (hOpen : w.openSrc = .ok c) (hCreate : w.create = none)
    (hPath : dst ≠ src) (hFile : w.sameFile = false)
    (hBuf : 0 < bufferSize) (hRead : ∀ k, 1 ≤ w.readLen k)
    (hReadErr : ∀ k, w.readErr k = none) (hWrite : ∀ k, w.write k = none)
    (init : Option Bytes) :
    (copyFile w src dst bufferSize).err = none ∧
    (copyFile w src dst bufferSize).panicked = false ∧
    fileAfter dst (copyFile w src dst bufferSize).events init = some c := by
  have hb : ¬ bufferSize < 0 := by omega
  have hpos : 0 < bufferSize.toNat := by omega
  have hne : ¬ (dst = src ∨ w.sameFile = true) := by simp [hPath, hFile]
  have := copyLoop_copies w dst bufferSize.toNat hpos hRead hReadErr hWrite init
    (c.length + 1) 0 c (Nat.lt_succ_self _) [.stat src, .openFile src, .create dst true]
  unfold copyFile
  simp only [hStat, hOpen, hCreate, Bool.not_true, Bool.false_eq_true, if_false, hb,
    if_neg hne]
  refine ⟨this.1, trivial, ?_⟩
  rw [this.2]
  simp [fileAfter, fileStep]

theorem copyFile_roundtrip_witness :
    (copyFile sampleCopyEnv "/tmp/aws-openvpn/src/openvpn/openvpn" "./openvpn" 3).err = none ∧
    (copyFile sampleCopyEnv "/tmp/aws-openvpn/src/openvpn/openvpn" "./openvpn" 3).panicked =
      false ∧
    fileAfter "./openvpn"
      (copyFile sampleCopyEnv "/tmp/aws-openvpn/src/openvpn/openvpn" "./openvpn" 3).events
      (some [9]) = some [1, 2, 3, 4, 5] :=
  copyFile_roundtrip sampleCopyEnv "/tmp/aws-openvpn/src/openvpn/openvpn" "./openvpn" 3
    [1, 2, 3, 4, 5] rfl rfl rfl (by decide) rfl (by decide) (fun _ => (by decide : 1 ≤ 2))
    (fun _ => rfl) (fun _ => rfl) (some [9])

/-- A negative buffer size makes `make` panic once the destination has been created. -/
theorem copyFile_negative_buffer (w : CopyEnv) (src dst : String) (bufferSize : Int)
    (c : Bytes)
    (hStat : w.stat = .ok true) (hOpen : w.openSrc = .ok c) (hCreate : w.create = none)
    (hBuf : bufferSize < 0) :
    (copyFile w src dst bufferSize).panicked = true ∧
    (copyFile w src dst bufferSize).events = [.stat src, .openFile src, .create dst true] := by
  simp [copyFile, hStat, hOpen, hCreate, hBuf]

/-- With a buffer size that is not negative `copyFile` returns. -/
theorem copyFile_no_panic (w : CopyEnv) (src dst : String) (bufferSize : Int)
    (hBuf : 0 ≤ bufferSize) : (copyFile w src dst bufferSize).panicked = false := by
  have hb : ¬ bufferSize < 0 := by omega
  unfold copyFile
  cases w.stat with
  | error e => rfl
  | ok regular =>
    cases regular with
    | false => rfl
    | true =>
      cases w.openSrc with
      | error e => rfl
      | ok content =>
        cases w.create with
        | some e => rfl
        | none => simp [hb]

/-- C8: when `os.Stat` fails on the source (it does not exist) or reports a file that is
not regular, `copyFile` returns an error after the `Stat` call alone: the destination is
neither created nor truncated nor written and is left as it was; for a source that is not
regular the error text holds the source path. -/
theorem copyFile_rejects_source (w : CopyEnv) (src dst : String) (bufferSize : Int)
    (h : (∃ e, w.stat = .error e) ∨ w.stat = .ok false) :
    (copyFile w src dst bufferSize).err ≠ none ∧
    (copyFile w src dst bufferSize).events = [.stat src] ∧
    (∀ init, fileAfter dst (copyFile w src dst bufferSize).events init = init) ∧
    (w.stat = .ok false →
      (copyFile w src dst bufferSize).err = some (src ++ " is not a regular file") ∧
      Contains (src ++ " is not a regular file") src) := by
  have hc : Contains (src ++ " is not a regular file") src := by
    have := contains_append_mid "" src " is not a regular file"
    simpa using this
  rcases h with ⟨e, h⟩ | h
  · simp [copyFile, h, fileAfter, fileStep]
  · simp [copyFile, h, fileAfter, fileStep, hc]

theorem copyFile_rejects_source_witness :
    (copyFile directoryCopyEnv "/tmp/aws-openvpn/src" "./openvpn" 5120).err ≠ none ∧
    (copyFile directoryCopyEnv "/tmp/aws-openvpn/src" "./openvpn" 5120).events =
      [.stat "/tmp/aws-openvpn/src"] :=
  ⟨(copyFile_rejects_source directoryCopyEnv "/tmp/aws-openvpn/src" "./openvpn" 5120
      (Or.inr rfl)).1,
   (copyFile_rejects_source directoryCopyEnv "/tmp/aws-openvpn/src" "./openvpn" 5120
      (Or.inr rfl)).2.1⟩

/-! ## `setupAction` -/

theorem copyLoop_events (w : CopyEnv) (dst : String) (bufferSize : Nat) :
    ∀ (fuel k : Nat) (rest : Bytes) (h : rest.length < fuel) (ev : List Event),
      ∃ ws, (copyLoop w dst bufferSize fuel k rest h ev).2 = ev ++ ws ∧
        ∀ e ∈ ws, ∃ data, e = Event.write dst data := by
  intro fuel
  induction fuel with
  | zero => intro k rest h; exact absurd h (Nat.not_lt_zero _)
  | succ fuel ih =>
    intro k rest h ev
    unfold copyLoop
    split
    · exact ⟨[], by simp⟩
    · split
      · exact ⟨[], by simp⟩
      · split
        · exact ⟨[_], rfl, by simp⟩
        · rename_i hn _ _
          obtain ⟨ws, hws, hall⟩ := ih (k + 1) (rest.drop (readCount w bufferSize k rest))
            (by rw [List.length_drop]; unfold readCount at hn ⊢; omega)
            (ev ++ [.write dst (rest.take (readCount w bufferSize k rest))])
          refine ⟨Event.write dst (rest.take (readCount w bufferSize k rest)) :: ws, ?_, ?_⟩
          · simp only [hws]; simp
          · intro e he
            rcases List.mem_cons.1 he with he | he
            · exact ⟨_, he⟩
            · exact hall e he

/-- The trace of `copyFile` starts with the `Stat` call; after it come only `Open`,
`Create` and writes to the destination. -/
theorem copyFile_events (w : CopyEnv) (src dst : String) (bufferSize : Int) :
    ∃ tl, (copyFile w src dst bufferSize).events = Event.stat src :: tl ∧
      ∀ e ∈ tl, e = Event.openFile src ∨ (∃ ok, e = Event.create dst ok) ∨
        ∃ data, e = Event.write dst data := by
  unfold copyFile
  cases hS : w.stat with
  | error e => exact ⟨[], rfl, by simp⟩
  | ok regular =>
    cases regular with
    | false => exact ⟨[], rfl, by simp⟩
    | true =>
      cases hO : w.openSrc with
      | error e => exact ⟨[.openFile src], rfl, by simp⟩
      | ok content =>
        cases hC : w.create with
        | some e => exact ⟨[.openFile src, .create dst false], rfl, by simp⟩
        | none =>
          by_cases hb : bufferSize < 0
          · exact ⟨[.openFile src, .create dst true], by simp [hb], by simp⟩
          · obtain ⟨ws, hws, hall⟩ := copyLoop_events w dst bufferSize.toNat
              ((if dst = src ∨ w.sameFile = true then [] else content).length + 1) 0
              (if dst = src ∨ w.sameFile = true then [] else content)
              (Nat.lt_succ_self _) [.stat src, .openFile src, .create dst true]
            refine ⟨[.openFile src, .create dst true] ++ ws, ?_, ?_⟩
            · simp only [hws, hb, Bool.not_true, Bool.false_eq_true, if_false]; simp
            · intro e he
              simp only [List.cons_append, List.nil_append, List.mem_cons] at he
              rcases he with he | he | he
              · exact Or.inl he
              · exact Or.inr (Or.inl ⟨_, he⟩)
              · exact Or.inr (Or.inr (hall e he))

/-- The trace of `downloadFileAsTemp` starts with the `CreateTemp` call; after it come
only the `Get` and a write. -/
theorem downloadFileAsTemp_events (w : DownloadEnv) (outDir pattern url shaCheck : String) :
    ∃ created tl, (downloadFileAsTemp w outDir pattern url shaCheck).events =
        Event.createTemp outDir pattern created :: tl ∧
      ∀ e ∈ tl, e = Event.httpGet url ∨ ∃ p data, e = Event.write p data := by
  unfold downloadFileAsTemp
  cases hT : w.createTemp with
  | error e => exact ⟨none, [], rfl, by simp⟩
  | ok name =>
    cases hG : w.get with
    | error e => exact ⟨some name, [.httpGet url], rfl, by simp⟩
    | ok resp =>
      by_cases hS : resp.statusCode = 200
      · cases hB : resp.body with
        | error e => exact ⟨some name, [.httpGet url], by simp [hS, hB], by simp⟩
        | ok b =>
          by_cases hD : shaCheck ≠ "" ∧ hexEncode (sha256Sum b) ≠ shaCheck
          · exact ⟨some name, [.httpGet url], by simp [hS, hB, hD.1, hD.2], by simp⟩
          · cases hW : w.write with
            | some f =>
              exact ⟨some name, [.httpGet url, .write name (b.take f.written)],
                by simp only [hS, hB, hW, if_neg hD]; simp, by simp⟩
            | none =>
              exact ⟨some name, [.httpGet url, .write name b],
                by simp only [hS, hB, hW, if_neg hD]; simp, by simp⟩
      · exact ⟨some name, [.httpGet url], by simp [hS], by simp⟩

theorem filterMap_eq_nil_of_forall {α β : Type} (f : α → Option β) (l : List α)
    (h : ∀ a ∈ l, f a = none) : l.filterMap f = [] := by
  induction l with
  | nil => rfl
  | cons a l ih =>
    have ha := h a (by simp)
    have := ih (fun b hb => h b (by simp [hb]))
    simp [List.filterMap_cons, ha, this]

theorem filter_eq_nil_of_forall {α : Type} (f : α → Bool) (l : List α)
    (h : ∀ a ∈ l, f a = false) : l.filter f = [] := by
  induction l with
  | nil => rfl
  | cons a l ih =>
    have ha := h a (by simp)
    have := ih (fun b hb => h b (by simp [hb]))
    simp [List.filter_cons, ha, this]

theorem setupDownload_stages (w : SetupEnv) :
    stagesStarted (setupDownload w).events = [.download] ∧
    toolsStarted (setupDownload w).events = [] ∧
    cleanupEvents (setupDownload w).events = [] := by
  obtain ⟨created, tl, h, hall⟩ := downloadFileAsTemp_events w.download w.tmpDir
    "*openvpn-2.5.1.tar.xz" openVPNRelease openVPNSha
  unfold setupDownload
  rw [h]
  refine ⟨?_, ?_, ?_⟩
  · have : tl.filterMap stageMarker = [] := filterMap_eq_nil_of_forall _ _ (by
      intro e he
      rcases hall e he with rfl | ⟨p, data, rfl⟩ <;> rfl)
    simp [stagesStarted, List.filterMap_cons, stageMarker, this]
  · unfold toolsStarted
    apply filterMap_eq_nil_of_forall
    intro e he
    rcases List.mem_cons.1 he with rfl | he
    · rfl
    · rcases hall e he with rfl | ⟨p, data, rfl⟩ <;> rfl
  · unfold cleanupEvents
    apply filter_eq_nil_of_forall
    intro e he
    rcases List.mem_cons.1 he with rfl | he
    · rfl
    · rcases hall e he with rfl | ⟨p, data, rfl⟩ <;> rfl

theorem setupCopy_stages (w : SetupEnv) :
    stagesStarted (setupCopy w).events = [.install] ∧
    toolsStarted (setupCopy w).events = [] ∧
    cleanupEvents (setupCopy w).events = [] := by
  obtain ⟨tl, h, hall⟩ := copyFile_events w.copy (openVPNBuildDirPath ++ "/src/openvpn/openvpn")
    "./openvpn" 5120
  unfold setupCopy
  rw [h]
  refine ⟨?_, ?_, ?_⟩
  · have : tl.filterMap stageMarker = [] := filterMap_eq_nil_of_forall _ _ (by
      intro e he
      rcases hall e he with rfl | ⟨ok, rfl⟩ | ⟨data, rfl⟩ <;> rfl)
    simp [stagesStarted, List.filterMap_cons, stageMarker, this]
  · unfold toolsStarted
    apply filterMap_eq_nil_of_forall
    intro e he
    rcases List.mem_cons.1 he with rfl | he
    · rfl
    · rcases hall e he with rfl | ⟨ok, rfl⟩ | ⟨data, rfl⟩ <;> rfl
  · unfold cleanupEvents
    apply filter_eq_nil_of_forall
    intro e he
    rcases List.mem_cons.1 he with rfl | he
    · rfl
    · rcases hall e he with rfl | ⟨ok, rfl⟩ | ⟨data, rfl⟩ <;> rfl

theorem probe_tar : "command -v " ++ "tar" = "command -v tar" := by decide
theorem probe_patch : "command -v " ++ "patch" = "command -v patch" := by decide
theorem probe_make : "command -v " ++ "make" = "command -v make" := by decide

/-- Shape of the trace of `setupAction`: the stages started are the successful head of
the pipeline and the stage after it, the tools started are those reached, and the
removals are attempted exactly when every stage succeeded. -/
theorem setupAction_trace (w : SetupEnv) :
    stagesStarted (setupAction w).events = allStages.take (succeededStages w + 1) ∧
    toolsStarted (setupAction w).events = toolsReached w ∧
    cleanupEvents (setupAction w).events =
      (if allStagesOk w then
        [.removeAll "/tmp/aws-openvpn" w.removeAll.isNone,
         .remove (setupDownload w).filepath w.remove.isNone]
       else []) := by
  have hdl : downloadFileAsTemp w.download w.tmpDir "*openvpn-2.5.1.tar.xz" openVPNRelease
      openVPNSha = setupDownload w := rfl
  have hcp : copyFile w.copy (openVPNBuildDirPath ++ "/src/openvpn/openvpn") "./openvpn" 5120 =
      setupCopy w := rfl
  have hdir : openVPNBuildDirPath = "/tmp/aws-openvpn" := by decide
  obtain ⟨hds, hdt, hdc⟩ := setupDownload_stages w
  obtain ⟨hcs, hct, hcc⟩ := setupCopy_stages w
  have hdc2 : List.filter isRemoval (setupDownload w).events = [] := hdc
  have hcc2 : List.filter isRemoval (setupCopy w).events = [] := hcc
  unfold stagesStarted at hds hcs
  unfold toolsStarted at hdt hct
  unfold setupAction
  simp only [hdl, hcp, commandExists, probe_tar, probe_patch, probe_make]
  cases hA : w.sh "command -v tar" <;> cases hB : w.sh "command -v patch" <;>
    cases hC : w.sh "command -v make" <;>
    try (simp [allStagesOk, stageOutcomes, preflightOk, commandExists, hA, hB, hC,
      succeededStages, allStages, toolsReached, stagesStarted, toolsStarted, cleanupEvents,
      stageMarker, isRemoval, List.filterMap_append, List.filter_append, List.filterMap_cons,
      List.filter_cons, hds, hdt, hdc2, hcs, hct, hcc2, hdir]; done)
  simp only [hA, hB, hC, Bool.not_true, Bool.or_self, Bool.false_eq_true, if_false]
  cases hD : (setupDownload w).err
  case some e =>
    simp [allStagesOk, stageOutcomes, preflightOk, commandExists, hA, hB, hC, succeededStages,
      allStages, toolsReached, stagesStarted, toolsStarted, cleanupEvents, stageMarker, isRemoval,
      List.filterMap_append, List.filter_append, List.filterMap_cons, List.filter_cons, hds, hdt,
      hdc2, hcs, hct, hcc2, hdir, downloadOk, hD]
  cases hT : w.tar
  case some e =>
    simp [allStagesOk, stageOutcomes, preflightOk, commandExists, hA, hB, hC, succeededStages,
      allStages, toolsReached, stagesStarted, toolsStarted, cleanupEvents, stageMarker, isRemoval,
      List.filterMap_append, List.filter_append, List.filterMap_cons, List.filter_cons, hds, hdt,
      hdc2, hcs, hct, hcc2, hdir, downloadOk, hD,
      extractOk, hT]
  cases hCS : w.configureStart
  case some e =>
    simp [allStagesOk, stageOutcomes, preflightOk, commandExists, hA, hB, hC, succeededStages,
      allStages, toolsReached, stagesStarted, toolsStarted, cleanupEvents, stageMarker, isRemoval,
      List.filterMap_append, List.filter_append, List.filterMap_cons, List.filter_cons, hds, hdt,
      hdc2, hcs, hct, hcc2, hdir, downloadOk, hD,
      extractOk, hT, configureOk, hCS]
  cases hCW : w.configureWait
  case some e =>
    simp [allStagesOk, stageOutcomes, preflightOk, commandExists, hA, hB, hC, succeededStages,
      allStages, toolsReached, stagesStarted, toolsStarted, cleanupEvents, stageMarker, isRemoval,
      List.filterMap_append, List.filter_append, List.filterMap_cons, List.filter_cons, hds, hdt,
      hdc2, hcs, hct, hcc2, hdir, downloadOk, hD,
      extractOk, hT, configureOk, hCS, hCW]
  cases hG : w.getwd
  case error e =>
    simp [allStagesOk, stageOutcomes, preflightOk, commandExists, hA, hB, hC, succeededStages,
      allStages, toolsReached, stagesStarted, toolsStarted, cleanupEvents, stageMarker, isRemoval,
      List.filterMap_append, List.filter_append, List.filterMap_cons, List.filter_cons, hds, hdt,
      hdc2, hcs, hct, hcc2, hdir, downloadOk, hD,
      extractOk, hT, configureOk, hCS, hCW, patchOk, hG, Except.toBool]
  cases hPS : w.patchStart
  case some e =>
    simp [allStagesOk, stageOutcomes, preflightOk, commandExists, hA, hB, hC, succeededStages,
      allStages, toolsReached, stagesStarted, toolsStarted, cleanupEvents, stageMarker, isRemoval,
      List.filterMap_append, List.filter_append, List.filterMap_cons, List.filter_cons, hds, hdt,
      hdc2, hcs, hct, hcc2, hdir, downloadOk, hD,
      extractOk, hT, configureOk, hCS, hCW, patchOk, hG, Except.toBool, hPS]
  cases hPW : w.patchWait
  case some e =>
    simp [allStagesOk, stageOutcomes, preflightOk, commandExists, hA, hB, hC, succeededStages,
      allStages, toolsReached, stagesStarted, toolsStarted, cleanupEvents, stageMarker, isRemoval,
      List.filterMap_append, List.filter_append, List.filterMap_cons, List.filter_cons, hds, hdt,
      hdc2, hcs, hct, hcc2, hdir, downloadOk, hD,
      extractOk, hT, configureOk, hCS, hCW, patchOk, hG, Except.toBool, hPS, hPW]
  cases hMS : w.makeStart
  case some e =>
    simp [allStagesOk, stageOutcomes, preflightOk, commandExists, hA, hB, hC, succeededStages,
      allStages, toolsReached, stagesStarted, toolsStarted, cleanupEvents, stageMarker, isRemoval,
      List.filterMap_append, List.filter_append, List.filterMap_cons, List.filter_cons, hds, hdt,
      hdc2, hcs, hct, hcc2, hdir, downloadOk, hD,
      extractOk, hT, configureOk, hCS, hCW, patchOk, hG, Except.toBool, hPS, hPW, compileOk, hMS]
  cases hMW : w.makeWait
  case some e =>
    simp [allStagesOk, stageOutcomes, preflightOk, commandExists, hA, hB, hC, succeededStages,
      allStages, toolsReached, stagesStarted, toolsStarted, cleanupEvents, stageMarker, isRemoval,
      List.filterMap_append, List.filter_append, List.filterMap_cons, List.filter_cons, hds, hdt,
      hdc2, hcs, hct, hcc2, hdir, downloadOk, hD,
      extractOk, hT, configureOk, hCS, hCW, patchOk, hG, Except.toBool, hPS, hPW, compileOk, hMS,
      hMW]
  cases hI : (setupCopy w).err
  case some e =>
    simp [allStagesOk, stageOutcomes, preflightOk, commandExists, hA, hB, hC, succeededStages,
      allStages, toolsReached, stagesStarted, toolsStarted, cleanupEvents, stageMarker, isRemoval,
      List.filterMap_append, List.filter_append, List.filterMap_cons, List.filter_cons, hds, hdt,
      hdc2, hcs, hct, hcc2, hdir, downloadOk, hD,
      extractOk, hT, configureOk, hCS, hCW, patchOk, hG, Except.toBool, hPS, hPW, compileOk, hMS,
      hMW, installOk, hI]
  cases hR1 : w.removeAll <;> cases hR2 : w.remove <;>
    simp [allStagesOk, stageOutcomes, preflightOk, commandExists, hA, hB, hC, succeededStages,
      allStages, toolsReached, stagesStarted, toolsStarted, cleanupEvents, stageMarker, isRemoval,
      List.filterMap_append, List.filter_append, List.filterMap_cons, List.filter_cons, hds, hdt,
      hdc2, hcs, hct, hcc2, hdir, downloadOk, hD,
      extractOk, hT, configureOk, hCS, hCW, patchOk, hG, Except.toBool, hPS, hPW, compileOk, hMS,
      hMW, installOk, hI]

/-- C7: `setupAction` returns `nil` exactly when preflight, download, extract, configure,
patch, compile and install all succeed; the outcomes of the two cleanup removals have no
influence on the returned error; and when all stages succeed both removals are attempted,
the build directory first and the archive second, whether or not either fails. -/
theorem setupAction_success_iff (w : SetupEnv) :
    ((setupAction w).err = none ↔ allStagesOk w = true) ∧
    (∀ r1 r2, (setupAction { w with removeAll := r1, remove := r2 }).err = (setupAction w).err) ∧
    (allStagesOk w = true →
      cleanupEvents (setupAction w).events =
        [.removeAll "/tmp/aws-openvpn" w.removeAll.isNone,
         .remove (setupDownload w).filepath w.remove.isNone]) := by
  have hdl : downloadFileAsTemp w.download w.tmpDir "*openvpn-2.5.1.tar.xz" openVPNRelease
      openVPNSha = setupDownload w := rfl
  have hcp : copyFile w.copy (openVPNBuildDirPath ++ "/src/openvpn/openvpn") "./openvpn" 5120 =
      setupCopy w := rfl
  have hdir : openVPNBuildDirPath = "/tmp/aws-openvpn" := by decide
  obtain ⟨_, _, hdc⟩ := setupDownload_stages w
  obtain ⟨_, _, hcc⟩ := setupCopy_stages w
  unfold setupAction
  simp only [hdl, hcp, commandExists, probe_tar, probe_patch, probe_make]
  cases hA : w.sh "command -v tar" <;> cases hB : w.sh "command -v patch" <;>
    cases hC : w.sh "command -v make" <;>
    try (simp [allStagesOk, stageOutcomes, preflightOk, commandExists, hA, hB, hC]; done)
  simp only [hA, hB, hC, Bool.not_true, Bool.or_self, Bool.false_eq_true, if_false]
  cases hD : (setupDownload w).err
  case some e =>
    simp [allStagesOk, stageOutcomes, preflightOk, commandExists, hA, hB, hC, downloadOk, hD]
  cases hT : w.tar
  case some e =>
    simp [allStagesOk, stageOutcomes, preflightOk, commandExists, hA, hB, hC, downloadOk, hD,
      extractOk, hT]
  cases hCS : w.configureStart
  case some e =>
    simp [allStagesOk, stageOutcomes, preflightOk, commandExists, hA, hB, hC, downloadOk, hD,
      extractOk, hT, configureOk, hCS]
  cases hCW : w.configureWait
  case some e =>
    simp [allStagesOk, stageOutcomes, preflightOk, commandExists, hA, hB, hC, downloadOk, hD,
      extractOk, hT, configureOk, hCS, hCW]
  cases hG : w.getwd
  case error e =>
    simp [allStagesOk, stageOutcomes, preflightOk, commandExists, hA, hB, hC, downloadOk, hD,
      extractOk, hT, configureOk, hCS, hCW, patchOk, hG, Except.toBool]
  cases hPS : w.patchStart
  case some e =>
    simp [allStagesOk, stageOutcomes, preflightOk, commandExists, hA, hB, hC, downloadOk, hD,
      extractOk, hT, configureOk, hCS, hCW, patchOk, hG, Except.toBool, hPS]
  cases hPW : w.patchWait
  case some e =>
    simp [allStagesOk, stageOutcomes, preflightOk, commandExists, hA, hB, hC, downloadOk, hD,
      extractOk, hT, configureOk, hCS, hCW, patchOk, hG, Except.toBool, hPS, hPW]
  cases hMS : w.makeStart
  case some e =>
    simp [allStagesOk, stageOutcomes, preflightOk, commandExists, hA, hB, hC, downloadOk, hD,
      extractOk, hT, configureOk, hCS, hCW, patchOk, hG, Except.toBool, hPS, hPW, compileOk, hMS]
  cases hMW : w.makeWait
  case some e =>
    simp [allStagesOk, stageOutcomes, preflightOk, commandExists, hA, hB, hC, downloadOk, hD,
      extractOk, hT, configureOk, hCS, hCW, patchOk, hG, Except.toBool, hPS, hPW, compileOk, hMS,
      hMW]
  cases hI : (setupCopy w).err
  case some e =>
    simp [allStagesOk, stageOutcomes, preflightOk, commandExists, hA, hB, hC, downloadOk, hD,
      extractOk, hT, configureOk, hCS, hCW, patchOk, hG, Except.toBool, hPS, hPW, compileOk, hMS,
      hMW, installOk, hI]
  have hdc2 : List.filter isRemoval (setupDownload w).events = [] := hdc
  have hcc2 : List.filter isRemoval (setupCopy w).events = [] := hcc
  cases hR1 : w.removeAll <;> cases hR2 : w.remove <;>
    simp [allStagesOk, stageOutcomes, preflightOk, commandExists, hA, hB, hC, downloadOk, hD,
      extractOk, hT, configureOk, hCS, hCW, patchOk, hG, Except.toBool, hPS, hPW, compileOk, hMS,
      hMW, installOk, hI, cleanupEvents, List.filter_append, List.filter_cons, isRemoval, hdir,
      hdc2, hcc2]

theorem mem_toolsStarted_of_exec (evs : List Event) (dir name : String) (args : List String)
    (h : Event.exec dir name args ∈ evs) (hn : name ≠ "/bin/sh") : name ∈ toolsStarted evs := by
  unfold toolsStarted
  rw [List.mem_filterMap]
  exact ⟨_, h, by simp [hn]⟩

/-- C1 fails when `./configure` exits with status 1: the run returns that error and no
removal is attempted, neither of the build directory nor of the archive. -/
theorem setupAction_configure_failure_no_cleanup :
    configureOk configureFailsEnv = false ∧
    (setupAction configureFailsEnv).err = some "exit status 1" ∧
    cleanupEvents (setupAction configureFailsEnv).events = [] ∧
    ¬ (∃ ok, Event.removeAll "/tmp/aws-openvpn" ok ∈ (setupAction configureFailsEnv).events) := by
  decide

/-- C1, amended: the removals attempted in a run of `setupAction` are, when all seven
stages succeed, exactly one `RemoveAll` of `/tmp/aws-openvpn` followed by exactly one
`Remove` of the downloaded archive, and none at all when a stage fails. -/
theorem setupAction_cleanup (w : SetupEnv) :
    cleanupEvents (setupAction w).events =
      (if allStagesOk w then
        [.removeAll "/tmp/aws-openvpn" w.removeAll.isNone,
         .remove (setupDownload w).filepath w.remove.isNone]
       else []) :=
  (setupAction_trace w).2.2

/-- C4 fails on a host without `tar` (with `patch` and `make`), whatever `errorSuffix`
is: the run stops after the three probes, before any download, but the one error it logs
speaks of `git` and the error it returns names no tool; `tar` occurs in neither. -/
theorem setupAction_tar_missing (errorSuffix : String) :
    (commandExists (tarMissingEnv errorSuffix).sh "tar").1 = false ∧
    (setupAction (tarMissingEnv errorSuffix)).err = some "one or more commands not found" ∧
    (setupAction (tarMissingEnv errorSuffix)).events =
      [.exec "" "/bin/sh" ["-c", "command -v tar"],
       .logError ("git not found! Please install git to continue." ++ errorSuffix),
       .exec "" "/bin/sh" ["-c", "command -v patch"],
       .exec "" "/bin/sh" ["-c", "command -v make"]] ∧
    ¬ Contains "git not found! Please install git to continue." "tar" ∧
    ¬ Contains "one or more commands not found" "tar" := by
  refine ⟨rfl, ?_, ?_, by decide, by decide⟩
  · simp [setupAction, tarMissingEnv, configureFailsEnv, commandExists, probe_tar, probe_patch,
      probe_make]
  · simp [setupAction, tarMissingEnv, configureFailsEnv, commandExists, probe_tar, probe_patch,
      probe_make]

/-- When a required tool is missing, `setupAction` fails before the download stage: only
the preflight stage is started and no tool is run. -/
theorem setupAction_preflight_failure (w : SetupEnv) (h : preflightOk w = false) :
    (setupAction w).err = some "one or more commands not found" ∧
    stagesStarted (setupAction w).events = [.preflight] ∧
    toolsStarted (setupAction w).events = [] := by
  obtain ⟨h1, h2, _⟩ := setupAction_trace w
  refine ⟨?_, ?_, ?_⟩
  · unfold preflightOk commandExists at h
    simp only [probe_tar, probe_patch, probe_make] at h
    unfold setupAction
    simp only [commandExists, probe_tar, probe_patch, probe_make]
    cases hA : w.sh "command -v tar" <;> cases hB : w.sh "command -v patch" <;>
      cases hC : w.sh "command -v make" <;> simp_all
  · rw [h1]; simp [succeededStages, stageOutcomes, h, allStages]
  · rw [h2]; simp [toolsReached, h]

/-- C6: the stages of `setupAction` start in the order preflight, download, extract,
configure, patch, compile, install, and the stages started are the successful head of that
list and the one stage after it; the tools started are a head of tar, configure, patch,
make; when configure fails neither `patch` nor `make` is started, and when the download
fails none of `tar`, `./configure`, `patch`, `make` is. -/
theorem setupAction_stage_order (w : SetupEnv) :
    stagesStarted (setupAction w).events = allStages.take (succeededStages w + 1) ∧
    toolsStarted (setupAction w).events <+: ["tar", "./configure", "patch", "make"] ∧
    (configureOk w = false → ∀ dir args,
      Event.exec dir "patch" args ∉ (setupAction w).events ∧
      Event.exec dir "make" args ∉ (setupAction w).events) ∧
    (downloadOk w = false → ∀ dir args,
      Event.exec dir "tar" args ∉ (setupAction w).events ∧
      Event.exec dir "./configure" args ∉ (setupAction w).events ∧
      Event.exec dir "patch" args ∉ (setupAction w).events ∧
      Event.exec dir "make" args ∉ (setupAction w).events) := by
  obtain ⟨h1, h2, _⟩ := setupAction_trace w
  have hmem : ∀ dir name args, name ≠ "/bin/sh" → name ∉ toolsReached w →
      Event.exec dir name args ∉ (setupAction w).events := by
    intro dir name args hn hnot hin
    exact hnot (h2 ▸ mem_toolsStarted_of_exec _ dir name args hin hn)
  refine ⟨h1, ?_, ?_, ?_⟩
  · rw [h2]
    unfold toolsReached
    cases preflightOk w && downloadOk w <;> cases extractOk w <;>
      cases configureOk w && w.getwd.toBool <;> cases patchOk w <;> decide
  · intro hc dir args
    constructor
    · apply hmem _ _ _ (by decide)
      unfold toolsReached
      cases preflightOk w && downloadOk w <;> cases extractOk w <;> simp [hc]
    · apply hmem _ _ _ (by decide)
      unfold toolsReached
      cases preflightOk w && downloadOk w <;> cases extractOk w <;> simp [hc]
  · intro hd dir args
    refine ⟨?_, ?_, ?_, ?_⟩ <;>
    · apply hmem _ _ _ (by decide)
      simp [toolsReached, hd]

theorem setupAction_stage_order_witness :
    stagesStarted (setupAction configureFailsEnv).events =
      [.preflight, .download, .extract, .configure] ∧
    ∀ dir args,
      Event.exec dir "patch" args ∉ (setupAction configureFailsEnv).events ∧
      Event.exec dir "make" args ∉ (setupAction configureFailsEnv).events :=
  ⟨(setupAction_stage_order configureFailsEnv).1.trans (by decide),
   (setupAction_stage_order configureFailsEnv).2.2.1 (by decide)⟩

theorem setupAction_success_iff_witness :
    (setupAction allOkEnv).err = none ∧
    cleanupEvents (setupAction allOkEnv).events =
      [.removeAll "/tmp/aws-openvpn" false, .remove "/tmp/123openvpn-2.5.1.tar.xz" false] :=
  ⟨(setupAction_success_iff allOkEnv).1.2 (by decide),
   (setupAction_success_iff allOkEnv).2.2 (by decide)⟩

end AwsVpnClient
